import Mathlib

/-!
Shallow embedding of the IPC module of solid-auth-client (src/ipc.js):
a request/response RPC protocol over a window.postMessage-style transport.

JavaScript dynamic values are modelled by the inductive type JSVal.
Promises are modelled by their settled outcome (Except: rejected or
resolved), which is faithful because the scheduling model is
single-threaded and cooperative: the only suspension points are the
server awaiting the handler and the client awaiting its per-call promise.
Side effects of Server message handling (the console warning, the handler
invocation, the postMessage of the response) are recorded in an explicit
effect list, in program order; an uncaught throw or rejection of the
async message-handling flow is the Except.error outcome.
-/

/-- A JavaScript value: undefined, null, booleans, numbers (modelled as
integers, which covers every value this protocol manipulates), strings,
arrays and plain objects given by their own-property list. -/
inductive JSVal where
  | undefined : JSVal
  | null : JSVal
  | bool : Bool → JSVal
  | num : Int → JSVal
  | str : String → JSVal
  | arr : List JSVal → JSVal
  | obj : List (String × JSVal) → JSVal
deriving Inhabited

/-- Own-property lookup on an object field list (first binding wins;
object literals in the source never repeat a key). -/
def lookupField : List (String × JSVal) → String → Option JSVal
  | [], _ => none
  | (k, v) :: rest, key => if k == key then some v else lookupField rest key

/-- JavaScript own-property access returning the property value when the
value is an object that has it; primitives and arrays carry none of the
properties this protocol reads. -/
def JSVal.getOwn (v : JSVal) (key : String) : Option JSVal :=
  match v with
  | .obj fields => lookupField fields key
  | _ => none

/-- JavaScript property read `v[key]`: undefined when absent.  (The source
only performs such reads behind truthiness guards, so the null/undefined
TypeError case never arises on the paths modelled here.) -/
def JSVal.get (v : JSVal) (key : String) : JSVal :=
  (v.getOwn key).getD .undefined

/-- JavaScript hasOwnProperty. -/
def JSVal.hasOwn (v : JSVal) (key : String) : Bool :=
  (v.getOwn key).isSome

/-- JavaScript truthiness. -/
def JSVal.truthy : JSVal → Bool
  | .undefined => false
  | .null => false
  | .bool b => b
  | .num n => n != 0
  | .str s => s != ""
  | .arr _ => true
  | .obj _ => true

/-- JavaScript strict equality `v === s` against a known string `s`:
true exactly when `v` is that same string. -/
def JSVal.isStr (v : JSVal) (s : String) : Bool :=
  match v with
  | .str t => t == s
  | _ => false

/-- JavaScript spread `...v` of a value into an argument list: arrays
spread to their elements, strings to their characters; every other value
is not iterable and spreading it throws a TypeError (modelled as none). -/
def JSVal.spreadIter : JSVal → Option (List JSVal)
  | .arr xs => some xs
  | .str s => some (s.toList.map fun c => .str (String.mk [c]))
  | _ => none

/-- The reserved namespace key under which all protocol traffic travels. -/
def NAMESPACE : String := "solid-auth-client"

/-- The outcome a handler call settles to: the null sentinel, undefined,
or a promise that resolved (ok) or rejected (error). -/
inductive HRet where
  | hnull : HRet
  | hundefined : HRet
  | promise : Except JSVal JSVal → HRet
deriving Inhabited

/-- Awaiting a handler result: `await null` is null, `await undefined` is
undefined, awaiting a promise yields its resolution or throws its
rejection. -/
def awaitH : HRet → Except JSVal JSVal
  | .hnull => .ok .null
  | .hundefined => .ok .undefined
  | .promise r => r

/-- A handler: from a method value and an argument list to a handler
result (the source type `(string, ...args: any[]) => ?Promise<any>`;
the method is a JSVal because the server forwards whatever the request
envelope carried). -/
def Handler : Type := JSVal → List JSVal → HRet

/-- The failure an async message-handling flow can propagate uncaught:
the TypeError raised by spreading a non-iterable `args`, or the rejection
value of the handler promise. -/
inductive JSErr where
  | typeError : String → JSErr
  | handlerRejected : JSVal → JSErr

/-- A side effect of the Server message handling, in program order:
the console.warn diagnostic on origin mismatch (carrying the configured
and the observed origin), the invocation of the configured handler
(with the method and the spread argument list), and the postMessage of a
payload to a target origin. -/
inductive ServerEffect where
  | warned : String → String → ServerEffect
  | invoked : JSVal → List JSVal → ServerEffect
  | posted : JSVal → String → ServerEffect

/-- Server state: the configured client origin and the injected handler
(the client window reference only determines where postMessage goes,
which the posted effect already records through the target origin). -/
structure ServerConfig where
  clientOrigin : String
  handler : Handler

/-- The response envelope the Server posts: the id of the request echoed and
the resolved value of the handler under the `ret` key (an own property even
when the value is undefined), wrapped under the namespace key. -/
def responsePayload (id ret : JSVal) : JSVal :=
  .obj [(NAMESPACE, .obj [("id", id), ("ret", ret)])]

/-- Server._handleMessage: origin check, then `req = data && data[NAMESPACE]`,
then `if (req && req.method)` extract `{id, method, args}`, invoke
`handler(method, ...args)`, await it, and post `{[NAMESPACE]: {id, ret}}`
back to the configured client origin.  Returns the effects performed and
whether the async flow completed or propagated a failure uncaught. -/
def handleMessage (cfg : ServerConfig) (data : JSVal) (origin : String) :
    List ServerEffect × Except JSErr Unit :=
  if origin ≠ cfg.clientOrigin then
    ([.warned cfg.clientOrigin origin], .ok ())
  else
    let req := if data.truthy then data.get NAMESPACE else data
    if req.truthy && (req.get "method").truthy then
      let id := req.get "id"
      let method := req.get "method"
      match (req.get "args").spreadIter with
      | none => ([], .error (.typeError "args is not iterable"))
      | some args =>
        match awaitH (cfg.handler method args) with
        | .error e => ([.invoked method args], .error (.handlerRejected e))
        | .ok ret =>
            ([.invoked method args,
              .posted (responsePayload id ret) cfg.clientOrigin], .ok ())
    else ([], .ok ())

/-- The payloads of the postMessage calls among a list of server effects. -/
def postedPayloads : List ServerEffect → List JSVal
  | [] => []
  | .posted p _ :: rest => p :: postedPayloads rest
  | _ :: rest => postedPayloads rest

/-- The request envelope Client.request posts: the generated id, the
method and the packed argument array under the namespace key. -/
def requestPayload (id method : String) (args : List JSVal) : JSVal :=
  .obj [(NAMESPACE, .obj [("id", .str id), ("method", .str method),
                          ("args", .arr args)])]

/-- The responseListener registered by Client.request for the call with
generated id `id`, applied to the data of one inbound message:
`resp = data && data[NAMESPACE]`, and when
`resp` is truthy, `resp.id` strictly equals the id, and `resp` has a
`ret` own property, the promise of the call
is resolved with `resp.ret` (some), otherwise the listener stays armed
(none). -/
def responseListener (id : String) (data : JSVal) : Option JSVal :=
  let resp := if data.truthy then data.get NAMESPACE else data
  if resp.truthy && (resp.get "id").isStr id && resp.hasOwn "ret" then
    some (resp.get "ret")
  else
    none

/-- The fate of one pending call: its one-shot listener applied to the
inbound messages in arrival order.  On the first match the promise is
resolved with the ret of the response and the listener unregisters itself, so
every later message is ignored; if no message matches, the promise never
settles (none). -/
def runClient (id : String) : List JSVal → Option JSVal
  | [] => none
  | d :: rest =>
    match responseListener id d with
    | some v => some v
    | none => runClient id rest

/-- Array.prototype.find with the predicate `promise !== null`: the first
element that is not the null sentinel (undefined passes the test), or
undefined when every element is null or the list is empty. -/
def jsFindNonNull : List HRet → HRet
  | [] => .hundefined
  | .hnull :: rest => jsFindNonNull rest
  | r :: _ => r

/-- combineHandlers: maps every supplied handler over the same
`(method, ...args)` (eagerly, left to right) and selects with find the
first result that is strictly not null. -/
def combineHandlers (handlers : List Handler) : Handler :=
  fun method args => jsFindNonNull (handlers.map fun h => h method args)

/-- A handler instrumented to log its own invocations: from a method and
arguments to the calls it observed together with its result. -/
def HandlerS : Type :=
  JSVal → List JSVal → List (Nat × JSVal × List JSVal) × HRet

/-- Wraps a pure handler as a spy that records the one call made to it,
tagged with its position among the combined handlers. -/
def spy (tag : Nat) (h : Handler) : HandlerS :=
  fun method args => ([(tag, method, args)], h method args)

/-- Tags the handlers of a list with consecutive positions starting at
`tag`, each wrapped as a spy. -/
def spyAll (tag : Nat) : List Handler → List HandlerS
  | [] => []
  | h :: hs => spy tag h :: spyAll (tag + 1) hs

/-- combineHandlers on instrumented handlers: the same map-then-find as
the source, with the calls each handler observed concatenated in the
left-to-right order in which the map of JavaScript runs them. -/
def combineHandlersS (handlers : List HandlerS) (method : JSVal)
    (args : List JSVal) : List (Nat × JSVal × List JSVal) × HRet :=
  (((handlers.map fun h => h method args).map Prod.fst).flatten,
   jsFindNonNull ((handlers.map fun h => h method args).map Prod.snd))

/-- The call log every spy in positions tag, tag+1, ... produces when
each is invoked exactly once with the same method and arguments. -/
def spyLog (tag : Nat) (n : Nat) (method : JSVal) (args : List JSVal) :
    List (Nat × JSVal × List JSVal) :=
  match n with
  | 0 => []
  | n + 1 => (tag, method, args) :: spyLog (tag + 1) n method args

/-- Modelled from the spec: the resolution condition of a pending call as
the spec words it — the payload contains the namespace key, the
namespaced value carries an `id` equal to the generated id, and it has a
`ret` own property (regardless of value, including undefined).  Stated
over the raw payload so it can be compared with the listener the code
implements. -/
def claimResolves (id : String) (data : JSVal) : Bool :=
  data.hasOwn NAMESPACE &&
  ((data.get NAMESPACE).get "id").isStr id &&
  (data.get NAMESPACE).hasOwn "ret"

example : JSVal.truthy (.str "") = false := by decide
example : lookupField [("a", .null), ("b", .num 3)] "b" = some (.num 3) := rfl
example : (JSVal.obj [("ret", .undefined)]).hasOwn "ret" = true := rfl
example :
    handleMessage ⟨"https://c", fun _ _ => .promise (.ok (.str "v"))⟩
      (requestPayload "i1" "m" [.num 1]) "https://c" =
    ([.invoked (.str "m") [.num 1],
      .posted (responsePayload (.str "i1") (.str "v")) "https://c"], .ok ()) := rfl
example : runClient "i1" [responsePayload (.str "i1") (.num 7)] = some (.num 7) := rfl
example :
    combineHandlers [fun _ _ => .hnull, fun _ _ => .promise (.ok (.str "ok"))]
      (.str "m") [] = .promise (.ok (.str "ok")) := rfl

/-! Helper lemmas shared by the claim theorems. -/

/-- A value with a truthy property is itself truthy (only objects carry
properties and objects are always truthy). -/
theorem truthy_of_get_truthy (v : JSVal) (k : String)
    (h : (v.get k).truthy = true) : v.truthy = true := by
  cases v <;> simp_all [JSVal.get, JSVal.getOwn, JSVal.truthy]

/-- When every handler of the list returns the null sentinel at the given
input, the combined handler returns undefined (the result of find when no
element passes). -/
theorem combineHandlers_all_hnull (hs : List Handler) (m : JSVal)
    (a : List JSVal) (h : ∀ f ∈ hs, f m a = .hnull) :
    combineHandlers hs m a = .hundefined := by
  induction hs with
  | nil => rfl
  | cons f fs ih =>
    have hf : f m a = .hnull := h f (by simp)
    have ht := ih fun g hg => h g (by simp [hg])
    simpa [combineHandlers, hf, jsFindNonNull] using ht

/-- find skips any prefix of null sentinels. -/
theorem jsFindNonNull_replicate_append (n : Nat) (l : List HRet) :
    jsFindNonNull (List.replicate n .hnull ++ l) = jsFindNonNull l := by
  induction n with
  | zero => rfl
  | succ n ih => simpa [List.replicate_succ, jsFindNonNull] using ih

/-- The concatenated call log of the spied handlers: one call per
handler, consecutive tags, always the same method and arguments. -/
theorem spyAll_map_fst (t : Nat) (hs : List Handler) (m : JSVal)
    (a : List JSVal) :
    (List.map (Prod.fst ∘ fun g => g m a) (spyAll t hs)).flatten =
      spyLog t hs.length m a := by
  induction hs generalizing t with
  | nil => rfl
  | cons f fs ih => simpa [spyAll, spy, spyLog] using ih (t + 1)

/-- The results of the spied handlers coincide with the results of the
underlying handlers. -/
theorem spyAll_map_snd (t : Nat) (hs : List Handler) (m : JSVal)
    (a : List JSVal) :
    List.map (Prod.snd ∘ fun g => g m a) (spyAll t hs) =
      hs.map fun f => f m a := by
  induction hs generalizing t with
  | nil => rfl
  | cons f fs ih => simpa [spyAll, spy] using ih (t + 1)

/-- The instrumented combinator both logs one call per handler in
declared order and computes exactly what the plain combinator computes. -/
theorem combineHandlersS_spyAll (t : Nat) (hs : List Handler) (m : JSVal)
    (a : List JSVal) :
    combineHandlersS (spyAll t hs) m a =
      (spyLog t hs.length m a, combineHandlers hs m a) := by
  simp [combineHandlersS, combineHandlers, spyAll_map_fst, spyAll_map_snd]

/-- The isSome of a conditional resolution is its Boolean condition. -/
theorem isSome_if_some {α : Type} (c : Bool) (x : α) :
    (if c = true then some x else none).isSome = c := by
  cases c <;> simp

/-- The listener of the code resolves exactly on the payloads the spec
condition describes. -/
theorem responseListener_isSome (id : String) (data : JSVal) :
    (responseListener id data).isSome = claimResolves id data := by
  cases data with
  | obj fields =>
    cases hlk : lookupField fields NAMESPACE with
    | none =>
      simp [responseListener, claimResolves, JSVal.get, JSVal.getOwn,
        JSVal.hasOwn, JSVal.truthy, JSVal.isStr, isSome_if_some, hlk]
    | some v =>
      cases v <;>
        simp [responseListener, claimResolves, JSVal.get, JSVal.getOwn,
          JSVal.hasOwn, JSVal.truthy, JSVal.isStr, isSome_if_some, hlk]
      split <;> simp_all
  | bool b =>
    cases b <;>
      simp [responseListener, claimResolves, JSVal.get, JSVal.getOwn,
        JSVal.hasOwn, JSVal.truthy, JSVal.isStr, isSome_if_some]
  | num n =>
    by_cases hn : n = 0 <;>
      simp [responseListener, claimResolves, JSVal.get, JSVal.getOwn,
        JSVal.hasOwn, JSVal.truthy, JSVal.isStr, isSome_if_some, hn]
  | str s =>
    by_cases hs : s = "" <;>
      simp [responseListener, claimResolves, JSVal.get, JSVal.getOwn,
        JSVal.hasOwn, JSVal.truthy, JSVal.isStr, isSome_if_some, hs]
  | _ =>
    simp [responseListener, claimResolves, JSVal.get, JSVal.getOwn,
      JSVal.hasOwn, JSVal.truthy, JSVal.isStr, isSome_if_some]

/-- On a payload satisfying the spec condition, the listener resolves
with the ret value of the namespaced response. -/
theorem responseListener_of_claim (id : String) (data : JSVal)
    (h : claimResolves id data = true) :
    responseListener id data = some ((data.get NAMESPACE).get "ret") := by
  cases data with
  | obj fields =>
    cases hlk : lookupField fields NAMESPACE with
    | none =>
      simp [claimResolves, JSVal.hasOwn, JSVal.getOwn, hlk] at h
    | some v =>
      cases v <;>
        simp_all [responseListener, claimResolves, JSVal.get, JSVal.getOwn,
          JSVal.hasOwn, JSVal.truthy, JSVal.isStr, hlk]
  | _ => simp [claimResolves, JSVal.hasOwn, JSVal.getOwn] at h

/-! Claim theorems. -/

/-- C1 (counterexample): a structurally valid request envelope whose
method is the empty string (id, method and args all present, with the
types the data model prescribes) is dropped by the truthiness guard of
the Server: no effect at all is performed, so the handler (which would
have resolved to the string v) is never invoked, no response is posted,
and the promise of the Client call cannot resolve. -/
theorem c1_empty_method_request_ignored :
    handleMessage ⟨"https://c", fun _ _ => .promise (.ok (.str "v"))⟩
      (requestPayload "id1" "" [.num 1]) "https://c" = ([], .ok ()) := rfl

/-- C1 (amended: the method of the envelope must be a non-empty string):
for every such request envelope sent by a Client to a Server configured
with the matching origin pair whose handler resolves, the Server invokes
the handler with exactly the method and args of the request (in order)
and posts the response envelope, and the pending call of the Client
resolves to exactly the value the handler promise resolved to. -/
theorem c1_request_roundtrip (cfg : ServerConfig) (id method : String)
    (args : List JSVal) (r : JSVal) (hm : method ≠ "")
    (hh : cfg.handler (.str method) args = .promise (.ok r)) :
    handleMessage cfg (requestPayload id method args) cfg.clientOrigin =
      ([.invoked (.str method) args,
        .posted (responsePayload (.str id) r) cfg.clientOrigin], .ok ()) ∧
    runClient id (postedPayloads
      (handleMessage cfg (requestPayload id method args) cfg.clientOrigin).1) =
      some r := by
  have h1 : handleMessage cfg (requestPayload id method args) cfg.clientOrigin =
      ([.invoked (.str method) args,
        .posted (responsePayload (.str id) r) cfg.clientOrigin], .ok ()) := by
    simp [handleMessage, requestPayload, JSVal.truthy, JSVal.get, JSVal.getOwn,
      lookupField, JSVal.spreadIter, awaitH, hh, hm, NAMESPACE]
  refine ⟨h1, ?_⟩
  rw [h1]
  simp [postedPayloads, runClient, responseListener, responsePayload,
    JSVal.truthy, JSVal.get, JSVal.getOwn, lookupField, JSVal.isStr,
    JSVal.hasOwn, NAMESPACE]

theorem c1_request_roundtrip_witness :
    handleMessage ⟨"https://app", fun _ _ => .promise (.ok (.str "v"))⟩
      (requestPayload "i1" "m" [.num 1, .num 2]) "https://app" =
      ([.invoked (.str "m") [.num 1, .num 2],
        .posted (responsePayload (.str "i1") (.str "v")) "https://app"], .ok ()) ∧
    runClient "i1" (postedPayloads
      (handleMessage ⟨"https://app", fun _ _ => .promise (.ok (.str "v"))⟩
        (requestPayload "i1" "m" [.num 1, .num 2]) "https://app").1) =
      some (.str "v") :=
  c1_request_roundtrip ⟨"https://app", fun _ _ => .promise (.ok (.str "v"))⟩
    "i1" "m" [.num 1, .num 2] (.str "v") (by decide) rfl

/-- C2: for every inbound message whose declared origin differs (exact
string comparison) from the configured client origin, the Server performs
exactly one effect, the warning-level diagnostic naming the configured
and the observed origin: the handler is never invoked, nothing is posted,
and the flow completes without throwing. -/
theorem c2_origin_mismatch_only_warns (cfg : ServerConfig) (data : JSVal)
    (origin : String) (h : origin ≠ cfg.clientOrigin) :
    handleMessage cfg data origin =
      ([.warned cfg.clientOrigin origin], .ok ()) := by
  simp [handleMessage, h]

theorem c2_origin_mismatch_only_warns_witness :
    handleMessage ⟨"https://a", fun _ _ => .hnull⟩ .null "https://b" =
      ([.warned "https://a" "https://b"], .ok ()) :=
  c2_origin_mismatch_only_warns ⟨"https://a", fun _ _ => .hnull⟩ .null
    "https://b" (by decide)

/-- C3 (counterexample): a message with matching origin whose namespaced
value has a method and args but lacks the id field is NOT ignored: the
Server invokes the handler and posts a response whose id is undefined,
contradicting the claim that a message lacking an id field never reaches
the handler. -/
theorem c3_missing_id_still_handled :
    handleMessage ⟨"https://c", fun _ _ => .promise (.ok (.str "v"))⟩
      (.obj [(NAMESPACE, .obj [("method", .str "m"), ("args", .arr [])])])
      "https://c" =
      ([.invoked (.str "m") [],
        .posted (responsePayload .undefined (.str "v")) "https://c"], .ok ()) := rfl

/-- C3 (amended: drop the id clause): for every inbound message with
matching origin whose payload lacks the reserved namespace key, or whose
namespaced value has no truthy method field, the Server performs no
effect and does not throw — the message is ignored silently.  (A message
lacking only the id is handled normally, as the counterexample shows.) -/
theorem c3_non_request_ignored_silently (cfg : ServerConfig) (data : JSVal)
    (h : data.getOwn NAMESPACE = none ∨
         ((data.get NAMESPACE).get "method").truthy = false) :
    handleMessage cfg data cfg.clientOrigin = ([], .ok ()) := by
  by_cases hd : data.truthy = true
  · rcases h with h | h
    · have hreq : (if data.truthy = true then data.get NAMESPACE else data) =
          .undefined := by simp [hd, JSVal.get, h]
      simp only [handleMessage, hreq]
      simp [JSVal.truthy]
    · simp [handleMessage, hd, h]
  · have hd' : data.truthy = false := by simpa using hd
    simp [handleMessage, hd']

theorem c3_non_request_ignored_silently_witness :
    handleMessage ⟨"https://a", fun _ _ => .hnull⟩ (.obj [("x", .null)])
      "https://a" = ([], .ok ()) :=
  c3_non_request_ignored_silently ⟨"https://a", fun _ _ => .hnull⟩
    (.obj [("x", .null)]) (Or.inl rfl)

/-- C8: when the handler promise rejects while the Server processes a
request with matching origin, the Server records only the invocation —
no response envelope is posted for that id — and the rejection propagates
uncaught out of the message-handling flow; with no posted payload the
pending call of the Client never settles. -/
theorem c8_handler_rejection_no_response (cfg : ServerConfig)
    (id method : String) (args : List JSVal) (e : JSVal)
    (hm : method ≠ "")
    (hh : cfg.handler (.str method) args = .promise (.error e)) :
    handleMessage cfg (requestPayload id method args) cfg.clientOrigin =
      ([.invoked (.str method) args], .error (.handlerRejected e)) ∧
    runClient id (postedPayloads
      (handleMessage cfg (requestPayload id method args) cfg.clientOrigin).1) =
      none := by
  have h1 : handleMessage cfg (requestPayload id method args) cfg.clientOrigin =
      ([.invoked (.str method) args], .error (.handlerRejected e)) := by
    simp [handleMessage, requestPayload, JSVal.truthy, JSVal.get, JSVal.getOwn,
      lookupField, JSVal.spreadIter, awaitH, hh, hm, NAMESPACE]
  refine ⟨h1, ?_⟩
  rw [h1]
  rfl

theorem c8_handler_rejection_no_response_witness :
    handleMessage ⟨"https://a", fun _ _ => .promise (.error (.str "boom"))⟩
      (requestPayload "i1" "m" []) "https://a" =
      ([.invoked (.str "m") []], .error (.handlerRejected (.str "boom"))) ∧
    runClient "i1" (postedPayloads
      (handleMessage ⟨"https://a", fun _ _ => .promise (.error (.str "boom"))⟩
        (requestPayload "i1" "m" []) "https://a").1) = none :=
  c8_handler_rejection_no_response
    ⟨"https://a", fun _ _ => .promise (.error (.str "boom"))⟩
    "i1" "m" [] (.str "boom") (by decide) rfl

/-- C9: a message with matching origin whose namespaced payload has a
truthy method but whose args value is absent or not iterable makes
Server._handleMessage throw the TypeError of spreading args before the
handler is invoked: no effect is performed (no invocation, no response,
not a silent ignore) and the flow propagates the failure. -/
theorem c9_non_iterable_args_throws (cfg : ServerConfig) (data : JSVal)
    (hm : ((if data.truthy then data.get NAMESPACE else data).get
      "method").truthy = true)
    (ha : ((if data.truthy then data.get NAMESPACE else data).get
      "args").spreadIter = none) :
    handleMessage cfg data cfg.clientOrigin =
      ([], .error (.typeError "args is not iterable")) := by
  have hreq : (if data.truthy then data.get NAMESPACE else data).truthy =
      true := truthy_of_get_truthy _ _ hm
  simp [handleMessage, hreq, hm, ha]

theorem c9_non_iterable_args_throws_witness :
    handleMessage ⟨"https://a", fun _ _ => .hnull⟩
      (.obj [(NAMESPACE, .obj [("method", .str "m")])]) "https://a" =
      ([], .error (.typeError "args is not iterable")) :=
  c9_non_iterable_args_throws ⟨"https://a", fun _ _ => .hnull⟩
    (.obj [(NAMESPACE, .obj [("method", .str "m")])]) rfl rfl

/-- find returns the head immediately when it is a resolved-or-rejected
promise (passes the strict non-null test). -/
theorem jsFindNonNull_promise_cons (x : Except JSVal JSVal) (l : List HRet) :
    jsFindNonNull (.promise x :: l) = .promise x := rfl

/-- find returns the head immediately when it is undefined, which also
passes the strict non-null test. -/
theorem jsFindNonNull_hundef_cons (l : List HRet) :
    jsFindNonNull (.hundefined :: l) = .hundefined := rfl

/-- C4: two concurrent calls with distinct generated ids whose responses
arrive in the opposite order (the response of the second request first):
the listener of each call filters strictly on its own id, so each call
resolves to exactly the ret of its own response and never to the ret of
the other. -/
theorem c4_no_crosstalk_out_of_order (id1 id2 : String) (r1 r2 : JSVal)
    (h : id1 ≠ id2) :
    runClient id1 [responsePayload (.str id2) r2,
                   responsePayload (.str id1) r1] = some r1 ∧
    runClient id2 [responsePayload (.str id2) r2,
                   responsePayload (.str id1) r1] = some r2 := by
  constructor
  · simp [runClient, responseListener, responsePayload, JSVal.truthy,
      JSVal.get, JSVal.getOwn, lookupField, JSVal.isStr, JSVal.hasOwn,
      NAMESPACE, Ne.symm h]
  · simp [runClient, responseListener, responsePayload, JSVal.truthy,
      JSVal.get, JSVal.getOwn, lookupField, JSVal.isStr, JSVal.hasOwn,
      NAMESPACE]

theorem c4_no_crosstalk_out_of_order_witness :
    runClient "a" [responsePayload (.str "b") (.num 2),
                   responsePayload (.str "a") (.num 1)] = some (.num 1) ∧
    runClient "b" [responsePayload (.str "b") (.num 2),
                   responsePayload (.str "a") (.num 1)] = some (.num 2) :=
  c4_no_crosstalk_out_of_order "a" "b" (.num 1) (.num 2) (by decide)

/-- C5: the combined handler invokes every supplied handler, in declared
order, with the same method and args — the spy log records exactly one
call per handler even when an earlier handler already answered — and
returns the first result that is not the null sentinel (undefined when
all are null); in particular null-then-ok resolves to the string ok, and
an all-null pair resolves to undefined without throwing. -/
theorem c5_combine_eager_first_non_null :
    (∀ (hs : List Handler) (m : JSVal) (a : List JSVal),
      combineHandlersS (spyAll 0 hs) m a =
        (spyLog 0 hs.length m a, combineHandlers hs m a)) ∧
    (∀ (n : Nat) (x : Except JSVal JSVal) (post : List Handler) (m : JSVal)
        (a : List JSVal),
      combineHandlers (List.replicate n (fun _ _ => .hnull) ++
        (fun _ _ => .promise x) :: post) m a = .promise x) ∧
    (∀ (m : JSVal) (a : List JSVal),
      awaitH (combineHandlers [fun _ _ => .hnull,
        fun _ _ => .promise (.ok (.str "ok"))] m a) = .ok (.str "ok")) ∧
    (∀ (m : JSVal) (a : List JSVal),
      awaitH (combineHandlers [fun _ _ => .hnull, fun _ _ => .hnull] m a) =
        .ok .undefined) := by
  refine ⟨fun hs m a => combineHandlersS_spyAll 0 hs m a, ?_, ?_, ?_⟩
  · intro n x post m a
    simp [combineHandlers, List.map_append, List.map_replicate,
      jsFindNonNull_replicate_append, jsFindNonNull_promise_cons]
  · intro m a
    rfl
  · intro m a
    rfl

/-- C6: when every constituent handler returns the null sentinel for the
request, the combined handler yields undefined, the Server still posts a
response envelope carrying the request id and a ret own property whose
value is undefined, and the listener of the Client accepts it as a
completed response and resolves the call with undefined. -/
theorem c6_all_null_roundtrip_undefined (hs : List Handler)
    (o id method : String) (args : List JSVal) (hm : method ≠ "")
    (h : ∀ f ∈ hs, f (.str method) args = .hnull) :
    combineHandlers hs (.str method) args = .hundefined ∧
    handleMessage ⟨o, combineHandlers hs⟩ (requestPayload id method args) o =
      ([.invoked (.str method) args,
        .posted (responsePayload (.str id) .undefined) o], .ok ()) ∧
    runClient id [responsePayload (.str id) .undefined] = some .undefined := by
  have hc := combineHandlers_all_hnull hs (.str method) args h
  refine ⟨hc, ?_, ?_⟩
  · simp [handleMessage, requestPayload, JSVal.truthy, JSVal.get,
      JSVal.getOwn, lookupField, JSVal.spreadIter, awaitH, hc, hm, NAMESPACE]
  · simp [runClient, responseListener, responsePayload, JSVal.truthy,
      JSVal.get, JSVal.getOwn, lookupField, JSVal.isStr, JSVal.hasOwn,
      NAMESPACE]

theorem c6_all_null_roundtrip_undefined_witness :
    combineHandlers [fun _ _ => .hnull] (.str "m") [] = .hundefined ∧
    handleMessage ⟨"https://a", combineHandlers [fun _ _ => .hnull]⟩
      (requestPayload "i" "m" []) "https://a" =
      ([.invoked (.str "m") [],
        .posted (responsePayload (.str "i") .undefined) "https://a"], .ok ()) ∧
    runClient "i" [responsePayload (.str "i") .undefined] = some .undefined :=
  c6_all_null_roundtrip_undefined [fun _ _ => .hnull] "https://a" "i" "m" []
    (by decide) (by simp)

/-- C7: a pending call resolves exactly when an inbound message satisfies
the condition of the claim — the payload contains the namespace key, the
namespaced value carries an id equal to the generated id, and it has a
ret own property (regardless of its value, undefined included) — and on
the first such message the call resolves with that ret value while the
listener unregisters itself, so every remaining message (later same-id
responses included) is ignored and the call resolves at most once. -/
theorem c7_resolution_iff_one_shot (id : String) (data : JSVal)
    (rest : List JSVal) :
    ((responseListener id data).isSome = claimResolves id data) ∧
    (claimResolves id data = true →
      runClient id (data :: rest) = some ((data.get NAMESPACE).get "ret")) := by
  refine ⟨responseListener_isSome id data, fun h => ?_⟩
  have h2 := responseListener_of_claim id data h
  simp [runClient, h2]

theorem c7_resolution_iff_one_shot_witness :
    runClient "i" [responsePayload (.str "i") (.num 3),
                   responsePayload (.str "i") (.num 9)] = some (.num 3) :=
  (c7_resolution_iff_one_shot "i" (responsePayload (.str "i") (.num 3))
    [responsePayload (.str "i") (.num 9)]).2 rfl

/-- C10: find tests each result strictly against null only, so a
constituent handler returning undefined is selected as the first non-null
result: the combined handler returns undefined and the promise a later
handler returned is discarded, although the spy log shows every handler
(the later promise-returning one included) was invoked. -/
theorem c10_undefined_wins_over_later_promise :
    (∀ (n : Nat) (post : List Handler) (m : JSVal) (a : List JSVal),
      combineHandlers (List.replicate n (fun _ _ => .hnull) ++
        (fun _ _ => .hundefined) :: post) m a = .hundefined) ∧
    (∀ (g : Handler) (m : JSVal) (a : List JSVal),
      combineHandlersS
        (spyAll 0 [fun _ _ => .hnull, fun _ _ => .hundefined, g]) m a =
        ([(0, m, a), (1, m, a), (2, m, a)], .hundefined)) := by
  constructor
  · intro n post m a
    simp [combineHandlers, List.map_append, List.map_replicate,
      jsFindNonNull_replicate_append, jsFindNonNull_hundef_cons]
  · intro g m a
    simp [combineHandlersS, spyAll, spy, jsFindNonNull]
